import Mathlib

/-!
Verification development for `src/touchdesigner/tower_rites_setup.py`.

The module is a TouchDesigner network builder: `build` destroys any existing
`towerRites` child of the root component and recreates the whole network
(`controls`, `visuals`, `output`), and `_build_ai_generator` installs a
DAT-execute driver script (`AI_DRIVER_SCRIPT`) whose per-frame callback
`onFrameStart` polls an HTTP image-generation endpoint.

Shallow embedding choices:
  * An operator node is a `Node`: name, operator type, parameter list,
    input list (names of the nodes wired into `inputs`), storage
    (`comp.store`) entries, table rows (for `tableDAT`s) and children.
    Parameter values record the final value the script leaves on the
    parameter (`_wire_visual_parameters` overwrites a few values that
    `_build_visuals` set first; the `Node` records the value after wiring).
    Host expressions built with `"...".format(op.path)` are recorded
    structurally as `PExpr` values, and the GLSL shader sources as opaque
    `GlslId` markers, rather than as raw strings.
  * Python floats are modelled as `ℚ` (every literal in the script is an
    exact decimal, and the claims concern only comparisons and `max`/`min`).
  * The driver script's host interaction (fetches, the CHOP reads, the
    filesystem, `requests.post`, `response.json()`) is an explicit
    environment `DriverEnv`; `onFrameStart` returns a `FrameResult`
    recording the effects (HTTP request issued, files written, stored
    values, reload pulse) and whether an uncaught exception escaped.
  * `base64.b64encode`/`b64decode` are translated as executable functions
    over byte lists (`b64encode`, `b64decode`); `b64decode` returns `none`
    where the Python library raises (data length 1 mod 4, bad padding).
-/

namespace TowerRites

/-- Operator types used by the builder, one constructor per TouchDesigner
operator family that `tower_rites_setup.py` instantiates. -/
inductive OpType where
  | containerCOMP
  | baseCOMP
  | constantCHOP
  | nullCHOP
  | audioDeviceInCHOP
  | filterCHOP
  | lfoCHOP
  | mathCHOP
  | tableDAT
  | moviefileinTOP
  | crossTOP
  | rampTOP
  | noiseTOP
  | levelTOP
  | displaceTOP
  | feedbackTOP
  | transformTOP
  | compositeTOP
  | lookupTOP
  | glslTOP
  | nullTOP
  | textDAT
  | datExecuteDAT
deriving DecidableEq

/-- Markers for the three GLSL pixel shader sources (`BLOOM_GLSL`,
`CHROMA_GLSL`, `FILM_GLSL`); the shader text itself plays no role in any
claim, only which shader a `glslTOP` carries. -/
inductive GlslId where
  | bloomShader
  | chromaShader
  | filmShader
deriving DecidableEq

/-- Structural form of the host expression strings that
`_wire_visual_parameters` writes with `"...".format(path)`:
`chan path c` is the expression `op(path)[c]`,
`affine k path c m` is `k + op(path)[c] * m`,
`clampAffine k path c m` is `clamp(k + op(path)[c] * m, 0, 1)`,
`clampAffine2 k p1 c1 m1 p2 c2 m2` is
`clamp(k + op(p1)[c1] * m1 + op(p2)[c2] * m2, 0, 1)`, and
`frameRef` is `absTime.frame`. -/
inductive PExpr where
  | chan (path c : String)
  | affine (k : ℚ) (path c : String) (m : ℚ)
  | clampAffine (k : ℚ) (path c : String) (m : ℚ)
  | clampAffine2 (k : ℚ) (p1 c1 : String) (m1 : ℚ) (p2 c2 : String) (m2 : ℚ)
  | frameRef
deriving DecidableEq

/-- A parameter value as the script leaves it: a string, a rational
(Python float or int), a boolean, a host expression, or a GLSL source. -/
inductive PVal where
  | s (v : String)
  | q (v : ℚ)
  | b (v : Bool)
  | e (v : PExpr)
  | glsl (v : GlslId)
  | driverScript
deriving DecidableEq

/-- A value placed in a component's storage with `comp.store`.  Component
references (`tower.store("controls", controls)`) are recorded as `ref` with
the stored component's path relative to the storing component; path strings
(`ai.store("generated_top", generated.path)`) are plain `str`s. -/
inductive StoreVal where
  | str (v : String)
  | num (v : ℚ)
  | natv (v : Nat)
  | flag (v : Bool)
  | ref (relPath : String)
deriving DecidableEq

/-- A node of the TouchDesigner network: name, operator type, parameters,
input wiring (names of the input nodes, relative to the node's parent),
storage entries, table rows (non-empty only for `tableDAT`s) and children. -/
inductive Node where
  | mk (name : String) (ty : OpType) (pars : List (String × PVal))
       (inputs : List String) (store : List (String × StoreVal))
       (rows : List (List String)) (children : List Node)

/-- Name of a node. -/
def Node.name : Node → String
  | .mk n _ _ _ _ _ _ => n

/-- Operator type of a node. -/
def Node.ty : Node → OpType
  | .mk _ t _ _ _ _ _ => t

/-- Parameter list of a node. -/
def Node.pars : Node → List (String × PVal)
  | .mk _ _ p _ _ _ _ => p

/-- Input wiring of a node. -/
def Node.inputs : Node → List String
  | .mk _ _ _ i _ _ _ => i

/-- Storage entries of a node. -/
def Node.store : Node → List (String × StoreVal)
  | .mk _ _ _ _ s _ _ => s

/-- Table rows of a node. -/
def Node.rows : Node → List (List String)
  | .mk _ _ _ _ _ r _ => r

/-- Children of a node. -/
def Node.children : Node → List Node
  | .mk _ _ _ _ _ _ c => c

/-- Child lookup by name, the embedding of `comp.op("childName")`. -/
def Node.child (n : Node) (s : String) : Option Node :=
  n.children.find? (fun c => c.name == s)

/-- Parameter lookup by name. -/
def Node.par (n : Node) (k : String) : Option PVal :=
  (n.pars.find? (fun p => p.1 == k)).map (fun p => p.2)

/-- Storage lookup by key, the embedding of `comp.fetch(key)`. -/
def Node.fetch (n : Node) (k : String) : Option StoreVal :=
  (n.store.find? (fun p => p.1 == k)).map (fun p => p.2)

/-- Absolute path of the `master` constant CHOP when the root component has
path `p`; `_wire_visual_parameters` interpolates it with `master.path`. -/
def masterPath (p : String) : String := p ++ "/towerRites/controls/setup/master"

/-- Absolute path of the `modulation` math CHOP under root path `p`. -/
def modsPath (p : String) : String := p ++ "/towerRites/controls/setup/modulation"

/-- Absolute path of the `prompts` table DAT under root path `p`. -/
def promptsPath (p : String) : String := p ++ "/towerRites/controls/setup/prompts"

/-- Absolute path of the `generated` movie-file-in TOP under root path `p`. -/
def generatedPath (p : String) : String :=
  p ++ "/towerRites/visuals/aiGenerator/generated"

/-- Embedding of `_build_controls`: the `controls` base COMP the function
leaves behind (children in creation order; `audioIn` is created during the
assignment `audio.inputs = [setup.create(audioDeviceInCHOP, "audioIn")]`).
`nodeWidth`/`nodeHeight` are node attributes in TouchDesigner; the embedding
records them in the parameter list alongside the `par.*` settings. -/
def _build_controls : Node :=
  let master : Node := .mk "master" .constantCHOP
    [("value0", .q 0.6), ("value1", .q 0.35), ("value2", .q 0.25),
     ("value3", .q 0.5), ("value4", .q 0.2), ("value5", .q 0.0),
     ("value6", .q 0.35), ("value7", .q 0.45), ("value8", .q 0.55),
     ("name0", .s "feedback_mix"), ("name1", .s "audio_drive"),
     ("name2", .s "warp_amount"), ("name3", .s "bloom"),
     ("name4", .s "chromatic"), ("name5", .s "glitch_gate"),
     ("name6", .s "ai_blend"), ("name7", .s "archive_blend"),
     ("name8", .s "film_wear")] [] [] [] []
  let audio : Node := .mk "audio" .nullCHOP
    [("renamechan", .b true), ("renameto", .s "audio"), ("moncook", .q 1)]
    ["audioIn"] [] [] []
  let audioIn : Node := .mk "audioIn" .audioDeviceInCHOP [] [] [] [] []
  let envelope : Node := .mk "envelope" .filterCHOP
    [("filtertype", .s "lag"), ("lag", .q 0.12), ("amp", .q 1.4)]
    ["audio"] [] [] []
  let lfoSlow : Node := .mk "lfoSlow" .lfoCHOP
    [("type", .s "sine"), ("frequency", .q 0.015)] [] [] [] []
  let lfoFast : Node := .mk "lfoFast" .lfoCHOP
    [("type", .s "noise"), ("frequency", .q 0.45), ("amp", .q 0.3)] [] [] [] []
  let modulation : Node := .mk "modulation" .mathCHOP
    [("combinechans", .s "byindex"),
     ("channame1", .s "feedback_mix"), ("channame2", .s "audio_drive"),
     ("channame3", .s "warp_amount"), ("channame4", .s "bloom"),
     ("channame5", .s "chromatic"), ("channame6", .s "glitch_gate"),
     ("channame7", .s "audio_env"), ("channame8", .s "lfo_slow"),
     ("channame9", .s "lfo_fast"), ("channame10", .s "ai_blend"),
     ("channame11", .s "archive_blend"), ("channame12", .s "film_wear")]
    ["master", "envelope", "lfoSlow", "lfoFast"] [] [] []
  let prompts : Node := .mk "prompts" .tableDAT [("edit", .b true)] [] []
    [["key", "prompt"],
     ["base_prompt", "tower rites itself, brutalist scaffolding, decaying ritual architecture, archival newspaper ink bleeding, cinematic, dusk light"],
     ["alt_prompt", "tower rites itself, documentary fragments, analogue collage, machine hallucination, fractured lens bokeh"]] []
  let setup : Node := .mk "setup" .baseCOMP
    [("align", .b true), ("alignorder", .s "lrbt")] [] [] []
    [master, audio, audioIn, envelope, lfoSlow, lfoFast, modulation, prompts]
  .mk "controls" .baseCOMP
    [("nodeWidth", .q 220), ("nodeHeight", .q 160),
     ("align", .b true), ("alignorder", .s "lrbt")] []
    [("prompts", .ref "setup/prompts"), ("master", .ref "setup/master"),
     ("audio", .ref "setup/audio"), ("envelope", .ref "setup/envelope"),
     ("lfo_slow", .ref "setup/lfoSlow"), ("lfo_fast", .ref "setup/lfoFast"),
     ("modulation", .ref "setup/modulation")] [] [setup]

/-- Embedding of `_build_ai_generator` under root path `p`: the
`aiGenerator` base COMP with the `generated` loader TOP, the `out` null
TOP it returns, the `driver` text DAT holding `AI_DRIVER_SCRIPT` (whose
behaviour this file embeds as `onFrameStart` below) and the `driverExec`
DAT-execute operator, plus the storage the driver script reads. -/
def _build_ai_generator (p : String) : Node :=
  let generated : Node := .mk "generated" .moviefileinTOP
    [("file", .s "./media/generated/latest.png"), ("reload", .b true),
     ("play", .b false)] [] [] [] []
  let nullOut : Node := .mk "out" .nullTOP [] ["generated"] [] [] []
  let driver : Node := .mk "driver" .textDAT [("text", .driverScript)] [] [] [] []
  let driverExec : Node := .mk "driverExec" .datExecuteDAT
    [("dat", .s "driver"), ("frame", .b true), ("active", .b true)] [] [] [] []
  .mk "aiGenerator" .baseCOMP
    [("nodeWidth", .q 240), ("nodeHeight", .q 160),
     ("align", .b true), ("alignorder", .s "lrbt")] []
    [("audio_chop_path", .str (modsPath p)),
     ("feedback_chop_path", .str (modsPath p)),
     ("prompt_table", .str (promptsPath p)),
     ("generated_top", .str (generatedPath p)),
     ("last_prompt_index", .natv 0), ("prompt_seed", .natv 0),
     ("enabled", .flag true),
     ("endpoint", .str "http://127.0.0.1:7860/sdapi/v1/img2img"),
     ("interval", .num 8.0)] []
    [generated, nullOut, driver, driverExec]

/-- Embedding of `_build_visuals` (with `_wire_visual_parameters` already
applied, as `_build_visuals` calls it last) under root path `p`.  Parameter
values that the wiring pass overwrites (`feedback`, the transform channels,
`preadd`, `index`, the cross blends, the glitch seed) appear with their
final expression values. -/
def _build_visuals (p : String) : Node :=
  let aiGen : Node := _build_ai_generator p
  let archivalVideo : Node := .mk "archivalVideo" .moviefileinTOP
    [("file", .s "./media/archival/tower_press_video.mp4"),
     ("reload", .b true), ("play", .b true), ("rate", .q 0.95),
     ("loop", .b true)] [] [] [] []
  let archivalStill : Node := .mk "archivalStill" .moviefileinTOP
    [("file", .s "./media/archival/tower_press_still.jpg"),
     ("reload", .b true), ("play", .b false)] [] [] [] []
  let archivalMix : Node := .mk "archivalMix" .crossTOP
    [("blend", .e (.clampAffine 0.35 (modsPath p) "lfo_slow" 0.3))]
    ["archivalVideo", "archivalStill"] [] [] []
  let ramp : Node := .mk "heightRamp" .rampTOP
    [("type", .s "horizontal")] [] [] [] []
  let noise : Node := .mk "foundationNoise" .noiseTOP
    [("resolutionw", .q 1280), ("resolutionh", .q 720),
     ("type", .s "alligator"), ("period", .q 6), ("harmonics", .q 7),
     ("exponent", .q 3.5)] [] [] [] []
  let level : Node := .mk "foundationLevel" .levelTOP
    [("postadd", .q 0.15), ("postmult", .q 0.8)] ["foundationNoise"] [] [] []
  let displace : Node := .mk "displaceTower" .displaceTOP
    [("displaceweight", .q 0.47)] ["heightRamp", "foundationLevel"] [] [] []
  let feedback : Node := .mk "feedback" .feedbackTOP
    [("feedback", .e (.chan (masterPath p) "feedback_mix"))]
    ["displaceTower"] [] [] []
  let xform : Node := .mk "feedbackTransform" .transformTOP
    [("rotate", .e (.affine 0.06 (modsPath p) "warp_amount" 12)),
     ("scale", .e (.affine 1.002 (masterPath p) "feedback_mix" 0.02)),
     ("tx", .e (.affine (-0.004) (modsPath p) "lfo_slow" 0.01)),
     ("ty", .e (.affine (-0.002) (modsPath p) "lfo_fast" 0.015))]
    ["feedback"] [] [] []
  let comp : Node := .mk "feedbackComposite" .compositeTOP
    [("op", .s "add"),
     ("preadd", .e (.affine 0.25 (modsPath p) "audio_env" 0.45))]
    ["displaceTower", "feedbackTransform"] [] [] []
  let aiCross : Node := .mk "aiCross" .crossTOP
    [("blend", .e (.clampAffine 0 (masterPath p) "ai_blend" 1))]
    ["feedbackComposite", "aiGenerator/out"] [] [] []
  let archiveCross : Node := .mk "archiveCross" .crossTOP
    [("blend", .e (.clampAffine2 0 (masterPath p) "archive_blend" 1
        (modsPath p) "audio_env" 0.25))]
    ["aiCross", "archivalMix"] [] [] []
  let glitchSwitch : Node := .mk "glitchSwitch" .levelTOP
    [("brightness", .q 0.95)] ["archiveCross"] [] [] []
  let glitch : Node := .mk "glitch" .lookupTOP
    [("index", .e (.affine 0.35 (masterPath p) "glitch_gate" 0.4))]
    ["glitchSwitch", "glitchPattern"] [] [] []
  let glitchPattern : Node := .mk "glitchPattern" .noiseTOP
    [("type", .s "random"), ("period", .q 0.3), ("harmonics", .q 9),
     ("seed", .e .frameRef)] [] [] [] []
  let bloom : Node := .mk "bloom" .glslTOP
    [("pixelcode", .glsl .bloomShader), ("resolutionmenu", .s "frominput"),
     ("multiadd", .e (.affine 0.4 (masterPath p) "bloom" 1.6)),
     ("multimult", .e (.affine 0.6 (modsPath p) "audio_drive" 0.5))]
    ["glitch"] [] [] []
  let chroma : Node := .mk "chromaticOffset" .glslTOP
    [("pixelcode", .glsl .chromaShader), ("resolutionmenu", .s "frominput"),
     ("par1", .e (.chan (masterPath p) "chromatic")),
     ("par2", .e (.chan (modsPath p) "audio_env"))]
    ["bloom"] [] [] []
  let film : Node := .mk "filmTexture" .glslTOP
    [("pixelcode", .glsl .filmShader), ("resolutionmenu", .s "frominput"),
     ("par1", .e (.chan (masterPath p) "film_wear")),
     ("par2", .e (.chan (modsPath p) "audio_env"))]
    ["chromaticOffset"] [] [] []
  .mk "visuals" .containerCOMP
    [("nodeWidth", .q 340), ("nodeHeight", .q 200),
     ("align", .b true), ("alignorder", .s "lrbt")] []
    [("ramp", .ref "heightRamp"), ("noise", .ref "foundationNoise"),
     ("level", .ref "foundationLevel"), ("displace", .ref "displaceTower"),
     ("feedback", .ref "feedback"), ("transform", .ref "feedbackTransform"),
     ("composite", .ref "feedbackComposite"), ("ai_cross", .ref "aiCross"),
     ("archival_cross", .ref "archiveCross"), ("glitch", .ref "glitch"),
     ("bloom", .ref "bloom"), ("chromatic", .ref "chromaticOffset"),
     ("film", .ref "filmTexture"), ("archival_mix", .ref "archivalMix"),
     ("archival_video", .ref "archivalVideo"),
     ("archival_still", .ref "archivalStill"),
     ("ai_output", .ref "aiGenerator/out")] []
    [aiGen, archivalVideo, archivalStill, archivalMix, ramp, noise, level,
     displace, feedback, xform, comp, aiCross, archiveCross, glitchSwitch,
     glitch, glitchPattern, bloom, chroma, film]

/-- Embedding of `_build_output`: the `final` null TOP (fed by the `film`
TOP fetched from `visuals`) and the `displayLevel` level TOP. -/
def _build_output : Node :=
  let viewer : Node := .mk "final" .nullTOP
    [("resolutionw", .q 1280), ("resolutionh", .q 720)]
    ["../visuals/filmTexture"] [] [] []
  let levels : Node := .mk "displayLevel" .levelTOP
    [("brightness", .q 0.96)] ["final"] [] [] []
  .mk "output" .containerCOMP
    [("nodeWidth", .q 280), ("nodeHeight", .q 160),
     ("align", .b true), ("alignorder", .s "lrbt")] []
    [("output", .ref "displayLevel")] [] [viewer, levels]

/-- The `towerRites` container that `build` creates under a root whose
path is `p`, with the shortcuts `build` stores on it (lines 80-84). -/
def towerNode (p : String) : Node :=
  .mk "towerRites" .containerCOMP
    [("nodeWidth", .q 300), ("nodeHeight", .q 180),
     ("alignorder", .s "lrbt"), ("align", .b true),
     ("alignhorz", .s "left"), ("alignvert", .s "top"),
     ("display", .b true), ("w", .q 1280), ("h", .q 720)] []
    [("controls", .ref "controls"), ("visuals", .ref "visuals"),
     ("output", .ref "output"), ("build_version", .str "2024-06-20")] []
    [_build_controls, _build_visuals p, _build_output]

/-- Embedding of lines 57-59 of `build`: `root.op("towerRites")` resolves
the first child named `towerRites` (sibling names are unique in the host,
so at most one exists) and `existing.destroy()` removes it. -/
def eraseTower : List Node → List Node
  | [] => []
  | n :: rest => if n.name = "towerRites" then rest else n :: eraseTower rest

/-- Effect of one successful `build` call on the root's child list: the
existing `towerRites` child (if any) is destroyed and a fresh one created. -/
def buildChildren (p : String) (cs : List Node) : List Node :=
  eraseTower cs ++ [towerNode p]

/-- Embedding of `build`.  The argument `root` is the optional root COMP
as its path and child list; `project1` is what `op("/project1")` resolves
to (its child list, or `none` when unresolved).  Returns the root's new
child list and the `towerRites` COMP the Python function returns, or the
`RuntimeError` message; the error is raised before any destroy or create. -/
def build (root : Option (String × List Node)) (project1 : Option (List Node)) :
    Except String (List Node × Node) :=
  match root with
  | some (p, cs) => .ok (buildChildren p cs, towerNode p)
  | none =>
    match project1 with
    | none => .error "Unable to resolve /project1. Pass an explicit root COMP."
    | some cs => .ok (buildChildren "/project1" cs, towerNode "/project1")

/-! ## Embedding of `AI_DRIVER_SCRIPT`

The driver text installed by `_build_ai_generator` is a Python module whose
per-frame callback is `onFrameStart`.  Bytes are `Nat`s below 256; strings
of bytes are `List Nat`. -/

/-- Value of a character in the standard base64 alphabet, `none` for a
character outside it. -/
def b64val (c : Char) : Option Nat :=
  if 'A' ≤ c ∧ c ≤ 'Z' then some (c.toNat - 65)
  else if 'a' ≤ c ∧ c ≤ 'z' then some (c.toNat - 71)
  else if '0' ≤ c ∧ c ≤ '9' then some (c.toNat + 4)
  else if c = '+' then some 62
  else if c = '/' then some 63
  else none

/-- Character for a 6-bit value in the standard base64 alphabet. -/
def b64chr (n : Nat) : Char :=
  if n < 26 then Char.ofNat (65 + n)
  else if n < 52 then Char.ofNat (71 + n)
  else if n < 62 then Char.ofNat (n - 4)
  else if n = 62 then '+'
  else '/'

/-- Encoding pass of `base64.b64encode`: bytes to base64 characters, with
`=` padding for a trailing group of one or two bytes. -/
def encodeChunks : List Nat → List Char
  | x :: y :: z :: rest =>
    b64chr (x / 4) :: b64chr (x % 4 * 16 + y / 16) ::
    b64chr (y % 16 * 4 + z / 64) :: b64chr (z % 64) :: encodeChunks rest
  | [x] => [b64chr (x / 4), b64chr (x % 4 * 16), '=', '=']
  | [x, y] => [b64chr (x / 4), b64chr (x % 4 * 16 + y / 16), b64chr (y % 16 * 4), '=']
  | [] => []

/-- Embedding of `base64.b64encode(...).decode("utf-8")`: the base64 text
of a byte string (base64 output is ASCII, so the `decode("utf-8")` step is
the identity on the characters produced). -/
def b64encode (bs : List Nat) : String := String.mk (encodeChunks bs)

/-- Decoding pass of `base64.b64decode`: 6-bit values to bytes, a trailing
group of two or three values yielding one or two bytes. -/
def decodeChunks : List Nat → List Nat
  | a :: b :: c :: d :: rest =>
    (a * 4 + b / 16) :: (b % 16 * 16 + c / 4) :: (c % 4 * 64 + d) :: decodeChunks rest
  | [a, b] => [a * 4 + b / 16]
  | [a, b, c] => [a * 4 + b / 16, b % 16 * 16 + c / 4]
  | _ => []

/-- Embedding of `base64.b64decode`: characters outside the alphabet are
discarded (CPython decodes in non-validating mode), `=` ends the data, and
the call raises — here `none` — when the number of data characters is
1 mod 4 or the padding does not complete a 4-character group. -/
def b64decode (s : String) : Option (List Nat) :=
  let cleaned := s.data.filter (fun c => (b64val c).isSome || c == '=')
  let dataChars := cleaned.takeWhile (fun c => c != '=')
  let padChars := cleaned.drop dataChars.length
  if dataChars.length % 4 == 1 then none
  else if padChars.all (fun c => c == '=') && decide (padChars.length ≤ 2)
      && (dataChars.length + padChars.length) % 4 == 0 then
    some (decodeChunks (dataChars.filterMap b64val))
  else none

/-- Suffix of a character list after its first comma, `none` when no comma
occurs: the embedding of `s.split(",", 1)[1]`, whose `[1]` raises an
`IndexError` exactly when the string holds no comma. -/
def afterComma : List Char → Option (List Char)
  | [] => none
  | c :: rest => if c = ',' then some rest else afterComma rest

/-- Embedding of lines 566-567 of the driver: strip a leading `data:` URI
header up to the first comma.  `none` is the uncaught `IndexError` raised
when the string starts with `data:` but holds no comma. -/
def stripDataUri (s : String) : Option String :=
  if s.data.take 5 == "data:".data then (afterComma s.data).map String.mk
  else some s

/-- Host state behind one CHOP read (`_fetch_audio` / `_fetch_feedback`):
whether the stored path is non-empty, whether `op(path)` resolves, whether
touching the CHOP raises, its channel names, the value of the named channel
and the value of channel 0. -/
structure ChopEnv where
  pathSet : Bool
  found : Bool
  raises : Bool
  chanNames : List String
  namedVal : ℚ
  firstVal : ℚ
deriving DecidableEq

/-- Shared body of `_fetch_audio` and `_fetch_feedback`: 0.0 when the path
is empty, the CHOP is missing or the read raises, otherwise the named
channel when present (else channel 0), clamped below by 0. -/
def fetch_chan (name : String) (e : ChopEnv) : ℚ :=
  if e.pathSet = false then 0
  else if e.found = false then 0
  else if e.raises = true then 0
  else max 0 (if name ∈ e.chanNames then e.namedVal else e.firstVal)

/-- Embedding of `_fetch_audio`. -/
def _fetch_audio (e : ChopEnv) : ℚ := fetch_chan "audio_env" e

/-- Embedding of `_fetch_feedback`. -/
def _fetch_feedback (e : ChopEnv) : ℚ := fetch_chan "feedback_mix" e

/-- Data rows of the prompt table as `_build_prompt` reads them: rows with
fewer than two cells or whose first cell is `key` are skipped, and the
second cell of each remaining row is the prompt. -/
def extractPrompts (rows : List (List String)) : List String :=
  rows.filterMap (fun r =>
    match r with
    | a :: b :: _ => if a = "key" then none else some b
    | _ => none)

/-- Embedding of `_build_prompt`: from the fetched table (`none` when the
stored path is empty or `op` does not resolve), the stored
`last_prompt_index` and the audio envelope, the returned prompt and the
index stored back (`none` on the early returns, which store nothing). -/
def _build_prompt (table : Option (List (List String))) (lastIndex : Nat)
    (audio : ℚ) : String × Option Nat :=
  match table with
  | none => ("tower rites itself, analogue dream", none)
  | some rows =>
    let prompts := extractPrompts rows
    if prompts.length = 0 then ("tower rites itself, analogue dream", none)
    else
      let i0 := if prompts.length ≤ lastIndex then 0 else lastIndex
      let i1 := if (0.75 : ℚ) < audio then (i0 + 1) % prompts.length else i0
      (prompts.getD i1 "", some i1)

/-- Embedding of `os.path.join` for the relative POSIX paths the driver
builds. -/
def pjoin (a b : String) : String := if a = "" then b else a ++ "/" ++ b

/-- The module constant `MEDIA_NAME`. -/
def MEDIA_NAME : String := pjoin "media" (pjoin "generated" "latest.png")

/-- Embedding of `_ensure_media_path`: the returned target path (the
`os.makedirs` side effect is recorded by `onFrameStart`, and its failure is
swallowed). -/
def _ensure_media_path (projectFolder : String) : String :=
  pjoin projectFolder MEDIA_NAME

/-- Embedding of `_grab_archival_frame`.  `video` / `still` are the fetched
`archival_video` / `archival_still` entries: `none` when absent, otherwise
the result of `source.save` plus the re-read of the saved file (`none` when
that raises, `some bytes` on success).  Returns the base64 text (or `none`)
and the file writes performed. -/
def _grab_archival_frame (video still : Option (Option (List Nat)))
    (targetPath : String) : Option String × List (String × List Nat) :=
  match (if video.isSome then video else still) with
  | none => (none, [])
  | some none => (none, [])
  | some (some bytes) => (some (b64encode bytes), [(targetPath, bytes)])

/-- The JSON payload `onFrameStart` posts, with the fields in source order. -/
structure Payload where
  prompt : String
  cfg_scale : ℚ
  steps : Nat
  width : Nat
  height : Nat
  seed : Nat
  sampler_index : String
  denoising_strength : ℚ
  tiling : Bool
  negative_prompt : String
  init_images : Option (List String)
deriving DecidableEq

/-- Result of `response.json()`: it raises (uncaught in the driver), or it
yields a body whose `images` entry — `data.get("images")` when the body is
a dict, `None` otherwise — is `none` or a list of strings. -/
inductive JsonOutcome where
  | raises
  | val (images : Option (List String))
deriving DecidableEq

/-- Result of `requests.post(...)` followed by `response.raise_for_status()`:
an exception (caught by the driver), or a response body. -/
inductive HttpOutcome where
  | exn (msg : String)
  | ok (json : JsonOutcome)
deriving DecidableEq

/-- Everything the host and the outside world feed one `onFrameStart` call:
the stored values the driver fetches, the CHOP reads, `time.time()`, the
project folder and filesystem state, the archival sources, the random seed,
the HTTP outcome, whether the `latest.png` write succeeds, and the state of
the `generated` TOP resolved for the reload pulse. -/
structure DriverEnv where
  enabled : Bool
  interval : ℚ
  audio : ChopEnv
  fb : ChopEnv
  now : ℚ
  lastUpdate : ℚ
  endpoint : String
  promptTable : Option (List (List String))
  lastPromptIndex : Nat
  projectFolder : String
  mediaDirExists : Bool
  archivalVideo : Option (Option (List Nat))
  archivalStill : Option (Option (List Nat))
  seed : Nat
  http : HttpOutcome
  writeOk : Bool
  generatedTopFound : Bool
  pulseRaises : Bool

/-- Observable effects of one `onFrameStart` call: whether an uncaught
exception escaped, the HTTP request issued (with its payload), whether
`os.makedirs` was attempted, the files written (path, bytes) in order, the
values stored under `last_update` and `last_prompt_index`, and whether the
`generated` TOP received a reload pulse. -/
structure FrameResult where
  raised : Bool
  httpRequest : Option Payload
  madeDirs : Bool
  fileWrites : List (String × List Nat)
  storedLastUpdate : Option ℚ
  storedPromptIndex : Option Nat
  reloadPulsed : Bool
deriving DecidableEq

/-- Result of the guarded early returns of `onFrameStart`: no effect. -/
def FrameResult.noop : FrameResult := .mk false none false [] none none false

/-- The effective polling interval of lines 514-516:
`max(2.0, interval - audio_env * 4.5)`. -/
def effective_interval (env : DriverEnv) : ℚ :=
  max 2 (env.interval - _fetch_audio env.audio * 4.5)

/-- Path of `init_source.png`, the second argument of the
`_grab_archival_frame` call in `onFrameStart` (line 532). -/
def initSourcePath (env : DriverEnv) : String :=
  pjoin env.projectFolder (pjoin "media" (pjoin "generated" "init_source.png"))

/-- The `payload` dict built by `onFrameStart` (lines 535-549), fields in
source order; `init_images` is set exactly when `_grab_archival_frame`
returned a frame.  `int(audio_env * 100)` is the floor, as `_fetch_audio`
is non-negative. -/
def requestPayload (env : DriverEnv) : Payload :=
  let audio_env := _fetch_audio env.audio
  Payload.mk
    ((_build_prompt env.promptTable env.lastPromptIndex audio_env).1
      ++ " :: memory recursion " ++ toString (audio_env * 100).floor)
    (6 + _fetch_feedback env.fb * 6) 30 1280 720 env.seed "Euler a"
    (min 0.9 (0.35 + audio_env * 0.45)) false
    "watermark, oversaturated, jpeg artifacts, disfigured, missing detail"
    ((_grab_archival_frame env.archivalVideo env.archivalStill
        (initSourcePath env)).1.map (fun s => [s]))

/-- Embedding of the per-frame callback `onFrameStart` (the `frame`
argument is unused by the script). -/
def onFrameStart (env : DriverEnv) : FrameResult :=
  if env.enabled = false then .noop
  else
    let audio_env := _fetch_audio env.audio
    if env.now - env.lastUpdate < effective_interval env then .noop
    else if env.endpoint = "" then .noop
    else
      let pr := _build_prompt env.promptTable env.lastPromptIndex audio_env
      let target_path := _ensure_media_path env.projectFolder
      let madeDirs := !env.mediaDirExists
      let gr := _grab_archival_frame env.archivalVideo env.archivalStill
        (initSourcePath env)
      let payload : Payload := requestPayload env
      match env.http with
      | .exn _ => .mk false (some payload) madeDirs gr.2 (some env.now) pr.2 false
      | .ok .raises => .mk true (some payload) madeDirs gr.2 none pr.2 false
      | .ok (.val images) =>
        match images with
        | none => .mk false (some payload) madeDirs gr.2 (some env.now) pr.2 false
        | some [] => .mk false (some payload) madeDirs gr.2 (some env.now) pr.2 false
        | some (encoded :: _) =>
          match stripDataUri encoded with
          | none => .mk true (some payload) madeDirs gr.2 none pr.2 false
          | some enc =>
            match b64decode enc with
            | none => .mk false (some payload) madeDirs gr.2 (some env.now) pr.2 false
            | some bytes =>
              if env.writeOk = false then
                .mk false (some payload) madeDirs gr.2 (some env.now) pr.2 false
              else
                .mk false (some payload) madeDirs (gr.2 ++ [(target_path, bytes)])
                  (some env.now) pr.2 (env.generatedTopFound && !env.pulseRaises)

/-- Entry point of the text stored in the `driver` DAT: `AI_DRIVER_SCRIPT`
defines module-level helpers and the single callback `onFrameStart`, which
the `driverExec` DAT-execute operator invokes each frame. -/
def AI_DRIVER_SCRIPT_entry : DriverEnv → FrameResult := onFrameStart

/-! ## Helper definitions and lemmas -/

/-- Number of children named `towerRites` in a child list. -/
def countTower (cs : List Node) : Nat :=
  cs.countP (fun n => n.name == "towerRites")

/-- CHOP read state with an empty stored path (every read yields 0.0). -/
def chopOff : ChopEnv := .mk false false false [] 0 0

/-- Concrete frame state inside the polling interval: `interval` still 8.0,
`now` equal to the stored `last_update`. -/
def timerEnv : DriverEnv :=
  .mk true 8 chopOff chopOff 0 0 "http://127.0.0.1:7860/sdapi/v1/img2img"
    none 0 "/proj" true none none 7 (.ok (.val none)) true true false

/-- Concrete frame state past the interval whose HTTP request raises. -/
def exnEnv : DriverEnv :=
  .mk true 2 chopOff chopOff 5 0 "http://127.0.0.1:7860/sdapi/v1/img2img"
    none 0 "/proj" true none none 7 (.exn "connection refused") true true false

/-- Concrete frame state past the interval whose response body fails to
parse (`response.json()` raises). -/
def jsonRaisesEnv : DriverEnv :=
  .mk true 2 chopOff chopOff 5 0 "http://127.0.0.1:7860/sdapi/v1/img2img"
    none 0 "/proj" true none none 7 (.ok .raises) true true false

/-- Concrete frame state past the interval whose response carries the
non-empty images list `["A"]`, whose only entry is invalid base64 (one
data character cannot be 1 more than a multiple of 4). -/
def badB64Env : DriverEnv :=
  .mk true 2 chopOff chopOff 5 0 "http://127.0.0.1:7860/sdapi/v1/img2img"
    none 0 "/proj" true none none 7 (.ok (.val (some ["A"]))) true true false

/-- Concrete frame state past the interval with the archival video
present (frame bytes `[1, 2]`), a response carrying the valid base64 image
`"AAAA"`, and a succeeding file write. -/
def writeEnv : DriverEnv :=
  .mk true 2 chopOff chopOff 5 0 "http://127.0.0.1:7860/sdapi/v1/img2img"
    none 0 "/proj" true (some (some [1, 2])) none 7
    (.ok (.val (some ["AAAA"]))) true true false

/-- Descendant lookup along a path of child names. -/
def nodeAt (n : Node) : List String → Option Node
  | [] => some n
  | s :: rest =>
    match n.child s with
    | none => none
    | some c => nodeAt c rest

lemma towerNode_name (p : String) : (towerNode p).name = "towerRites" := rfl

lemma countTower_cons (n : Node) (rest : List Node) :
    countTower (n :: rest) =
      countTower rest + if n.name == "towerRites" then 1 else 0 := by
  simp [countTower, List.countP_cons]

lemma countTower_eraseTower (cs : List Node) (h : countTower cs ≤ 1) :
    countTower (eraseTower cs) = 0 := by
  induction cs with
  | nil => rfl
  | cons n rest ih =>
    by_cases hn : n.name = "towerRites"
    · have hb : (n.name == "towerRites") = true := by simp [hn]
      have h2 : countTower rest + 1 ≤ 1 := by
        simpa [countTower_cons, hb] using h
      have h0 : countTower rest = 0 := by omega
      simpa [eraseTower, hn] using h0
    · have hb : (n.name == "towerRites") = false := by simp [hn]
      have h2 : countTower rest ≤ 1 := by
        simpa [countTower_cons, hb] using h
      have h0 := ih h2
      simp [eraseTower, hn, countTower_cons, hb, h0]

lemma countTower_zero_head {n : Node} {rest : List Node}
    (h : countTower (n :: rest) = 0) :
    ¬(n.name = "towerRites") ∧ countTower rest = 0 := by
  by_cases hn : n.name = "towerRites"
  · have hb : (n.name == "towerRites") = true := by simp [hn]
    rw [countTower_cons, hb] at h
    simp at h
  · have hb : (n.name == "towerRites") = false := by simp [hn]
    rw [countTower_cons, hb] at h
    simpa [hn] using h

lemma eraseTower_cons_tower (p : String) (rest : List Node) :
    eraseTower (towerNode p :: rest) = rest := by
  simp only [eraseTower]
  exact if_pos (towerNode_name p)

lemma eraseTower_append (cs : List Node) (p : String) (h : countTower cs = 0) :
    eraseTower (cs ++ [towerNode p]) = cs := by
  induction cs with
  | nil => simpa using eraseTower_cons_tower p []
  | cons n rest ih =>
    obtain ⟨hn, h0⟩ := countTower_zero_head h
    simp [eraseTower, hn, ih h0]

lemma countTower_append_tower (cs : List Node) (p : String) :
    countTower (cs ++ [towerNode p]) = countTower cs + 1 := by
  simp [countTower, List.countP_append, List.countP_cons, towerNode_name]

lemma build_ok_shape {root : Option (String × List Node)}
    {project1 : Option (List Node)} {cs₁ : List Node} {t : Node}
    (h : build root project1 = Except.ok (cs₁, t)) :
    ∃ p cs, cs₁ = buildChildren p cs ∧ t = towerNode p := by
  cases root with
  | some rc =>
    obtain ⟨p, cs⟩ := rc
    have hboth : cs₁ = buildChildren p cs ∧ t = towerNode p := by
      simpa [build, Prod.ext_iff, eq_comm] using h
    exact ⟨p, cs, hboth.1, hboth.2⟩
  | none =>
    cases project1 with
    | none => simp [build] at h
    | some cs =>
      have hboth : cs₁ = buildChildren "/project1" cs ∧ t = towerNode "/project1" := by
        simpa [build, Prod.ext_iff, eq_comm] using h
      exact ⟨"/project1", cs, hboth.1, hboth.2⟩

/-! ## Claim theorems -/

/-- C1: `build` is idempotent on the resulting graph.  For a root child
list `cs` with at most one `towerRites` child (sibling names are unique in
the host), a successful `build` yields a child list `cs₁` on which a second
`build` call returns exactly the same child list and the same tower, `cs₁`
holds exactly one `towerRites` child, and that child is the tower a single
call produces. -/
theorem build_idempotent (p : String) (cs cs₁ : List Node) (t : Node)
    (huniq : countTower cs ≤ 1)
    (h1 : build (some (p, cs)) none = .ok (cs₁, t)) :
    build (some (p, cs₁)) none = .ok (cs₁, t) ∧
      countTower cs₁ = 1 ∧ t = towerNode p := by
  have hshape : cs₁ = buildChildren p cs ∧ t = towerNode p := by
    simpa [build, Prod.ext_iff, eq_comm] using h1
  obtain ⟨hc, ht⟩ := hshape
  subst hc
  subst ht
  have h0 : countTower (eraseTower cs) = 0 := countTower_eraseTower cs huniq
  refine ⟨?_, ?_, rfl⟩
  · show Except.ok (buildChildren p (buildChildren p cs), towerNode p)
      = Except.ok (buildChildren p cs, towerNode p)
    have hfix : buildChildren p (buildChildren p cs) = buildChildren p cs := by
      unfold buildChildren
      rw [eraseTower_append _ p h0]
    rw [hfix]
  · unfold buildChildren
    rw [countTower_append_tower, h0]

/-- Witness for C1 at a concrete root that already holds a `towerRites`
child: rebuilding is a fixed point after the first call. -/
theorem build_idempotent_witness :
    build (some ("/project1", [towerNode "/project1"])) none
        = .ok ([towerNode "/project1"], towerNode "/project1") ∧
      countTower [towerNode "/project1"] = 1 ∧
      towerNode "/project1" = towerNode "/project1" :=
  build_idempotent "/project1" [towerNode "/project1"] [towerNode "/project1"]
    (towerNode "/project1") (by decide) rfl

/-- C9: with `root=None` and `/project1` unresolved, `build` raises the
`RuntimeError` (the embedding returns the error before any destroy or
create, as the Python raise precedes them); in every other case it returns
the fresh `towerRites` container with `controls`, `visuals`, `output` and
`build_version` stored on it. -/
theorem build_root_resolution (root : Option (String × List Node))
    (project1 : Option (List Node))
    (h : root ≠ none ∨ project1 ≠ none) :
    build none none
        = .error "Unable to resolve /project1. Pass an explicit root COMP." ∧
      ∃ newChildren t, build root project1 = .ok (newChildren, t) ∧
        t.name = "towerRites" ∧
        t.fetch "controls" = some (.ref "controls") ∧
        t.fetch "visuals" = some (.ref "visuals") ∧
        t.fetch "output" = some (.ref "output") ∧
        t.fetch "build_version" = some (.str "2024-06-20") := by
  refine ⟨rfl, ?_⟩
  cases root with
  | some rc =>
    obtain ⟨p, cs⟩ := rc
    exact ⟨buildChildren p cs, towerNode p, rfl, rfl, rfl, rfl, rfl, rfl⟩
  | none =>
    cases project1 with
    | none => simp at h
    | some cs =>
      exact ⟨buildChildren "/project1" cs, towerNode "/project1",
        rfl, rfl, rfl, rfl, rfl, rfl⟩

/-- Witness for C9: `build` with no explicit root and a resolvable, empty
`/project1`. -/
theorem build_root_resolution_witness :
    build none none
        = .error "Unable to resolve /project1. Pass an explicit root COMP." ∧
      ∃ newChildren t, build none (some []) = .ok (newChildren, t) ∧
        t.name = "towerRites" ∧
        t.fetch "controls" = some (.ref "controls") ∧
        t.fetch "visuals" = some (.ref "visuals") ∧
        t.fetch "output" = some (.ref "output") ∧
        t.fetch "build_version" = some (.str "2024-06-20") :=
  build_root_resolution none (some []) (Or.inr (by simp))

/-- C7: every successful `build` call returns a tower holding nodes of
each advertised kind — audio analysis (`audioDeviceIn`/`filter` CHOPs),
noise generators (`noise` TOPs), the feedback cycle
(`feedback`/`transform`/`composite` TOPs wired in a loop), GLSL post
effects (bloom, chromatic offset, film texture), the still/video mixer
(`cross` TOP over the two archival `moviefilein` TOPs), and the remote
image-generation client (the `aiGenerator` block with its `generated`
loader TOP). -/
theorem build_advertised_kinds (root : Option (String × List Node))
    (project1 : Option (List Node)) (cs₁ : List Node) (t : Node)
    (h : build root project1 = Except.ok (cs₁, t)) :
    (nodeAt t ["controls", "setup", "audioIn"]).map Node.ty
        = some .audioDeviceInCHOP ∧
      (nodeAt t ["controls", "setup", "envelope"]).map (fun n => (n.ty, n.inputs))
        = some (.filterCHOP, ["audio"]) ∧
      (nodeAt t ["visuals", "foundationNoise"]).map Node.ty = some .noiseTOP ∧
      (nodeAt t ["visuals", "glitchPattern"]).map Node.ty = some .noiseTOP ∧
      (nodeAt t ["visuals", "feedback"]).map (fun n => (n.ty, n.inputs))
        = some (.feedbackTOP, ["displaceTower"]) ∧
      (nodeAt t ["visuals", "feedbackTransform"]).map (fun n => (n.ty, n.inputs))
        = some (.transformTOP, ["feedback"]) ∧
      (nodeAt t ["visuals", "feedbackComposite"]).map (fun n => (n.ty, n.inputs))
        = some (.compositeTOP, ["displaceTower", "feedbackTransform"]) ∧
      (nodeAt t ["visuals", "bloom"]).map Node.ty = some .glslTOP ∧
      (nodeAt t ["visuals", "bloom"]).bind (fun n => n.par "pixelcode")
        = some (.glsl .bloomShader) ∧
      (nodeAt t ["visuals", "chromaticOffset"]).map Node.ty = some .glslTOP ∧
      (nodeAt t ["visuals", "chromaticOffset"]).bind (fun n => n.par "pixelcode")
        = some (.glsl .chromaShader) ∧
      (nodeAt t ["visuals", "filmTexture"]).map Node.ty = some .glslTOP ∧
      (nodeAt t ["visuals", "filmTexture"]).bind (fun n => n.par "pixelcode")
        = some (.glsl .filmShader) ∧
      (nodeAt t ["visuals", "archivalMix"]).map (fun n => (n.ty, n.inputs))
        = some (.crossTOP, ["archivalVideo", "archivalStill"]) ∧
      (nodeAt t ["visuals", "archivalVideo"]).map Node.ty = some .moviefileinTOP ∧
      (nodeAt t ["visuals", "archivalStill"]).map Node.ty = some .moviefileinTOP ∧
      (nodeAt t ["visuals", "aiGenerator"]).map Node.ty = some .baseCOMP ∧
      (nodeAt t ["visuals", "aiGenerator", "generated"]).map Node.ty
        = some .moviefileinTOP := by
  obtain ⟨p, cs, hc, ht⟩ := build_ok_shape h
  subst ht
  exact ⟨rfl, rfl, rfl, rfl, rfl, rfl, rfl, rfl, rfl, rfl, rfl, rfl, rfl,
    rfl, rfl, rfl, rfl, rfl⟩

/-- Witness for C7 at a concrete successful call. -/
theorem build_advertised_kinds_witness :
    (nodeAt (towerNode "/project1") ["controls", "setup", "audioIn"]).map Node.ty
        = some .audioDeviceInCHOP ∧
      (nodeAt (towerNode "/project1") ["controls", "setup", "envelope"]).map
          (fun n => (n.ty, n.inputs)) = some (.filterCHOP, ["audio"]) ∧
      (nodeAt (towerNode "/project1") ["visuals", "foundationNoise"]).map Node.ty
        = some .noiseTOP ∧
      (nodeAt (towerNode "/project1") ["visuals", "glitchPattern"]).map Node.ty
        = some .noiseTOP ∧
      (nodeAt (towerNode "/project1") ["visuals", "feedback"]).map
          (fun n => (n.ty, n.inputs)) = some (.feedbackTOP, ["displaceTower"]) ∧
      (nodeAt (towerNode "/project1") ["visuals", "feedbackTransform"]).map
          (fun n => (n.ty, n.inputs)) = some (.transformTOP, ["feedback"]) ∧
      (nodeAt (towerNode "/project1") ["visuals", "feedbackComposite"]).map
          (fun n => (n.ty, n.inputs))
        = some (.compositeTOP, ["displaceTower", "feedbackTransform"]) ∧
      (nodeAt (towerNode "/project1") ["visuals", "bloom"]).map Node.ty
        = some .glslTOP ∧
      (nodeAt (towerNode "/project1") ["visuals", "bloom"]).bind
          (fun n => n.par "pixelcode") = some (.glsl .bloomShader) ∧
      (nodeAt (towerNode "/project1") ["visuals", "chromaticOffset"]).map Node.ty
        = some .glslTOP ∧
      (nodeAt (towerNode "/project1") ["visuals", "chromaticOffset"]).bind
          (fun n => n.par "pixelcode") = some (.glsl .chromaShader) ∧
      (nodeAt (towerNode "/project1") ["visuals", "filmTexture"]).map Node.ty
        = some .glslTOP ∧
      (nodeAt (towerNode "/project1") ["visuals", "filmTexture"]).bind
          (fun n => n.par "pixelcode") = some (.glsl .filmShader) ∧
      (nodeAt (towerNode "/project1") ["visuals", "archivalMix"]).map
          (fun n => (n.ty, n.inputs))
        = some (.crossTOP, ["archivalVideo", "archivalStill"]) ∧
      (nodeAt (towerNode "/project1") ["visuals", "archivalVideo"]).map Node.ty
        = some .moviefileinTOP ∧
      (nodeAt (towerNode "/project1") ["visuals", "archivalStill"]).map Node.ty
        = some .moviefileinTOP ∧
      (nodeAt (towerNode "/project1") ["visuals", "aiGenerator"]).map Node.ty
        = some .baseCOMP ∧
      (nodeAt (towerNode "/project1") ["visuals", "aiGenerator", "generated"]).map
          Node.ty = some .moviefileinTOP :=
  build_advertised_kinds (some ("/project1", []))
    none (buildChildren "/project1" []) (towerNode "/project1") rfl

/-- C6: `_build_ai_generator` installs the driver text in a DAT-execute
operator with per-frame execution enabled and active, pointing at the
`driver` text DAT that holds `AI_DRIVER_SCRIPT`, whose entry point is the
per-frame callback embedded in this file as `onFrameStart`. -/
theorem ai_generator_frame_hook (p : String) :
    ((_build_ai_generator p).child "driverExec").map Node.ty
        = some .datExecuteDAT ∧
      ((_build_ai_generator p).child "driverExec").bind (fun d => d.par "frame")
        = some (.b true) ∧
      ((_build_ai_generator p).child "driverExec").bind (fun d => d.par "active")
        = some (.b true) ∧
      ((_build_ai_generator p).child "driverExec").bind (fun d => d.par "dat")
        = some (.s "driver") ∧
      ((_build_ai_generator p).child "driver").map Node.ty = some .textDAT ∧
      ((_build_ai_generator p).child "driver").bind (fun d => d.par "text")
        = some .driverScript ∧
      AI_DRIVER_SCRIPT_entry = onFrameStart :=
  ⟨rfl, rfl, rfl, rfl, rfl, rfl, rfl⟩

/-! ## Driver lemmas -/

lemma onFrameStart_noop_of_guard (env : DriverEnv)
    (h : env.now - env.lastUpdate < effective_interval env) :
    onFrameStart env = FrameResult.noop := by
  simp [onFrameStart, h]

lemma onFrameStart_httpRequest_some (env : DriverEnv)
    (he : env.enabled = true)
    (hl : ¬(env.now - env.lastUpdate < effective_interval env))
    (hp : ¬(env.endpoint = "")) :
    (onFrameStart env).httpRequest = some (requestPayload env) := by
  simp only [onFrameStart, he, hl, hp]
  cases env.http with
  | exn m => simp
  | ok j =>
    cases j with
    | raises => simp
    | val images =>
      cases images with
      | none => simp
      | some l =>
        cases l with
        | nil => simp
        | cons e0 r =>
          cases hs : stripDataUri e0 with
          | none => simp [hs]
          | some enc =>
            cases hd : b64decode enc with
            | none => simp [hs, hd]
            | some bs =>
              cases hw : env.writeOk <;> simp [hs, hd, hw]

lemma timerEnv_guard :
    timerEnv.now - timerEnv.lastUpdate < effective_interval timerEnv := by
  norm_num [timerEnv, chopOff, effective_interval, _fetch_audio, fetch_chan,
    lt_sup_iff]

lemma exnEnv_guard :
    ¬(exnEnv.now - exnEnv.lastUpdate < effective_interval exnEnv) := by
  norm_num [exnEnv, chopOff, effective_interval, _fetch_audio, fetch_chan,
    sup_le_iff]

lemma jsonRaisesEnv_guard :
    ¬(jsonRaisesEnv.now - jsonRaisesEnv.lastUpdate
      < effective_interval jsonRaisesEnv) := by
  norm_num [jsonRaisesEnv, chopOff, effective_interval, _fetch_audio,
    fetch_chan, sup_le_iff]

lemma badB64Env_guard :
    ¬(badB64Env.now - badB64Env.lastUpdate < effective_interval badB64Env) := by
  norm_num [badB64Env, chopOff, effective_interval, _fetch_audio, fetch_chan,
    sup_le_iff]

lemma writeEnv_guard :
    ¬(writeEnv.now - writeEnv.lastUpdate < effective_interval writeEnv) := by
  norm_num [writeEnv, chopOff, effective_interval, _fetch_audio, fetch_chan,
    sup_le_iff]

/-! ## Driver claim theorems -/

/-- C2: the polling is timer-driven.  When the time since the stored
`last_update` is below the effective interval
`max(2.0, interval - audio_env * 4.5)`, `onFrameStart` returns the no-op
result: no HTTP request, no file write, no directory creation, no store.
(The converse necessity — a request implies the interval elapsed — is the
contrapositive: the no-op result carries no request.) -/
theorem onFrameStart_timer_gate (env : DriverEnv)
    (h : env.now - env.lastUpdate < effective_interval env) :
    onFrameStart env = FrameResult.noop ∧
      (onFrameStart env).httpRequest = none ∧
      (onFrameStart env).fileWrites = [] := by
  have h0 := onFrameStart_noop_of_guard env h
  exact ⟨h0, by rw [h0]; rfl, by rw [h0]; rfl⟩

/-- Witness for C2 at a concrete frame state inside the interval. -/
theorem onFrameStart_timer_gate_witness :
    onFrameStart timerEnv = FrameResult.noop ∧
      (onFrameStart timerEnv).httpRequest = none ∧
      (onFrameStart timerEnv).fileWrites = [] :=
  onFrameStart_timer_gate timerEnv timerEnv_guard

/-- C8: the implicit 2.0-second rate floor.  The effective interval is
always at least 2, and whenever `onFrameStart` issues an HTTP request, at
least 2 seconds have passed since the stored `last_update`, regardless of
`interval` and the audio envelope. -/
theorem onFrameStart_rate_floor (env : DriverEnv)
    (hsome : (onFrameStart env).httpRequest.isSome = true) :
    2 ≤ effective_interval env ∧ 2 ≤ env.now - env.lastUpdate := by
  have h2 : (2 : ℚ) ≤ effective_interval env := by
    unfold effective_interval
    exact le_max_left _ _
  refine ⟨h2, ?_⟩
  by_contra hno
  push_neg at hno
  have hg : env.now - env.lastUpdate < effective_interval env :=
    lt_of_lt_of_le hno h2
  rw [onFrameStart_noop_of_guard env hg] at hsome
  simp [FrameResult.noop] at hsome

/-- Witness for C8 at a concrete frame state that issues a request. -/
theorem onFrameStart_rate_floor_witness :
    2 ≤ effective_interval exnEnv ∧ 2 ≤ exnEnv.now - exnEnv.lastUpdate :=
  onFrameStart_rate_floor exnEnv (by
    simp only [onFrameStart, exnEnv_guard]
    rfl)

/-- C3 (amended): an exception raised by the HTTP request itself
(`requests.post` / `raise_for_status`) is caught; the script records
`last_update` as the current time and returns normally, without a reload
pulse.  The original claim fails for exceptions raised while handling the
result: `response.json()` is evaluated outside every `try` block, so a
body-parse failure propagates (see the counterexample). -/
theorem onFrameStart_http_exception_caught (env : DriverEnv) (msg : String)
    (he : env.enabled = true)
    (hl : ¬(env.now - env.lastUpdate < effective_interval env))
    (hp : ¬(env.endpoint = ""))
    (hx : env.http = .exn msg) :
    (onFrameStart env).raised = false ∧
      (onFrameStart env).storedLastUpdate = some env.now ∧
      (onFrameStart env).httpRequest = some (requestPayload env) ∧
      (onFrameStart env).reloadPulsed = false := by
  refine ⟨?_, ?_, ?_, ?_⟩ <;> simp [onFrameStart, he, hl, hp, hx]

/-- Witness for C3 at a concrete frame state whose request raises. -/
theorem onFrameStart_http_exception_caught_witness :
    (onFrameStart exnEnv).raised = false ∧
      (onFrameStart exnEnv).storedLastUpdate = some exnEnv.now ∧
      (onFrameStart exnEnv).httpRequest = some (requestPayload exnEnv) ∧
      (onFrameStart exnEnv).reloadPulsed = false :=
  onFrameStart_http_exception_caught exnEnv "connection refused" rfl
    exnEnv_guard (by decide) rfl

/-- Counterexample to C3 as stated: at a frame state where the HTTP call
succeeds but `response.json()` raises (line 559 sits outside every `try`),
the exception propagates to the caller instead of being caught. -/
theorem onFrameStart_json_exception_escapes :
    (onFrameStart jsonRaisesEnv).raised = true := by
  simp only [onFrameStart, jsonRaisesEnv_guard]
  rfl

/-- C4 (amended): when the response holds a non-empty `images` list whose
first entry — after stripping a `data:` prefix up to the first comma —
decodes as base64 and the file write succeeds, `onFrameStart` writes the
decoded bytes to `media/generated/latest.png` under the project folder,
records `last_update`, and pulses the reload of the `generated`
movie-file-in TOP (which reads exactly that file) whenever that TOP
resolves and pulsing does not raise.  The original claim fails when the
first image does not decode: the write and the pulse are skipped (see the
counterexample). -/
theorem onFrameStart_writes_latest (env : DriverEnv) (e0 : String)
    (rest : List String) (enc : String) (bytes : List Nat)
    (he : env.enabled = true)
    (hl : ¬(env.now - env.lastUpdate < effective_interval env))
    (hp : ¬(env.endpoint = ""))
    (hi : env.http = .ok (.val (some (e0 :: rest))))
    (hs : stripDataUri e0 = some enc)
    (hd : b64decode enc = some bytes)
    (hw : env.writeOk = true) :
    MEDIA_NAME = "media/generated/latest.png" ∧
      (onFrameStart env).fileWrites
          = (_grab_archival_frame env.archivalVideo env.archivalStill
              (initSourcePath env)).2
            ++ [(_ensure_media_path env.projectFolder, bytes)] ∧
      (onFrameStart env).storedLastUpdate = some env.now ∧
      (onFrameStart env).reloadPulsed
          = (env.generatedTopFound && !env.pulseRaises) ∧
      ∀ q, ((_build_ai_generator q).child "generated").bind (fun g => g.par "file")
          = some (.s "./media/generated/latest.png") := by
  refine ⟨by decide, ?_, ?_, ?_, fun q => rfl⟩ <;>
    simp [onFrameStart, he, hl, hp, hi, hs, hd, hw]

/-- Witness for C4 at a concrete frame state: the archival frame `[1, 2]`
is saved for the request and `"AAAA"` decodes to `[0, 0, 0]`, which lands
in `latest.png`, with the reload pulsed. -/
theorem onFrameStart_writes_latest_witness :
    MEDIA_NAME = "media/generated/latest.png" ∧
      (onFrameStart writeEnv).fileWrites
          = (_grab_archival_frame writeEnv.archivalVideo writeEnv.archivalStill
              (initSourcePath writeEnv)).2
            ++ [(_ensure_media_path writeEnv.projectFolder, [0, 0, 0])] ∧
      (onFrameStart writeEnv).storedLastUpdate = some writeEnv.now ∧
      (onFrameStart writeEnv).reloadPulsed
          = (writeEnv.generatedTopFound && !writeEnv.pulseRaises) ∧
      ∀ q, ((_build_ai_generator q).child "generated").bind (fun g => g.par "file")
          = some (.s "./media/generated/latest.png") :=
  onFrameStart_writes_latest writeEnv "AAAA" [] "AAAA" [0, 0, 0] rfl
    writeEnv_guard (by decide) rfl (by decide) (by decide) rfl

/-- Counterexample to C4 as stated: the response carries the non-empty
images list `["A"]`, but `base64.b64decode` raises on its only entry (the
`except` of lines 569-575 catches it), so nothing is written, no pulse is
issued, and the call returns normally with `last_update` recorded. -/
theorem onFrameStart_bad_base64_skips_write :
    (onFrameStart badB64Env).reloadPulsed = false ∧
      (onFrameStart badB64Env).fileWrites = [] ∧
      (onFrameStart badB64Env).raised = false ∧
      (onFrameStart badB64Env).storedLastUpdate = some badB64Env.now := by
  refine ⟨?_, ?_, ?_, ?_⟩ <;> (simp only [onFrameStart, badB64Env_guard]; rfl)

/-- C5: the outgoing payload is base64-encoded.  `_grab_archival_frame`
returns the saved frame bytes base64-encoded as text — taking the archival
video when present and falling back to the archival still — and `none`
when neither source exists or saving fails; and the request payload's
`init_images` holds exactly that string as a one-element list when it is
produced, and is absent (`none`) otherwise. -/
theorem grab_archival_frame_base64 (env : DriverEnv) (p : Payload)
    (s : Option (Option (List Nat))) (b : List Nat) (tp : String)
    (he : env.enabled = true)
    (hl : ¬(env.now - env.lastUpdate < effective_interval env))
    (hp : ¬(env.endpoint = ""))
    (hreq : (onFrameStart env).httpRequest = some p) :
    _grab_archival_frame (some (some b)) s tp = (some (b64encode b), [(tp, b)]) ∧
      _grab_archival_frame none (some (some b)) tp
        = (some (b64encode b), [(tp, b)]) ∧
      _grab_archival_frame none none tp = (none, []) ∧
      _grab_archival_frame (some none) s tp = (none, []) ∧
      _grab_archival_frame none (some none) tp = (none, []) ∧
      p.init_images = ((_grab_archival_frame env.archivalVideo env.archivalStill
          (initSourcePath env)).1).map (fun x => [x]) := by
  have hpay : p = requestPayload env := by
    have hq := onFrameStart_httpRequest_some env he hl hp
    rw [hreq] at hq
    exact Option.some.inj hq
  subst hpay
  exact ⟨rfl, rfl, rfl, rfl, rfl, rfl⟩

/-- Witness for C5 at a concrete frame state with the video present. -/
theorem grab_archival_frame_base64_witness :
    _grab_archival_frame (some (some [9])) none "t"
        = (some (b64encode [9]), [("t", [9])]) ∧
      _grab_archival_frame none (some (some [9])) "t"
        = (some (b64encode [9]), [("t", [9])]) ∧
      _grab_archival_frame none none "t" = (none, []) ∧
      _grab_archival_frame (some none) none "t" = (none, []) ∧
      _grab_archival_frame none (some none) "t" = (none, []) ∧
      (requestPayload writeEnv).init_images
        = ((_grab_archival_frame writeEnv.archivalVideo writeEnv.archivalStill
            (initSourcePath writeEnv)).1).map (fun x => [x]) :=
  grab_archival_frame_base64 writeEnv (requestPayload writeEnv) none [9] "t"
    rfl writeEnv_guard (by decide)
    (by simp only [onFrameStart, writeEnv_guard]; rfl)

/-- C10 (amended): `_build_prompt` is total — it returns the (non-empty)
default `tower rites itself, analogue dream` when the prompt table is
missing or has no usable data rows, and whenever prompts exist the index
it stores is strictly below the number of prompts, the returned prompt is
the entry at that index, and the index advances by one modulo the list
length exactly when the audio envelope exceeds 0.75.  The original
claim's universal non-emptiness fails when a data row carries an empty
prompt cell (see the counterexample): the returned prompt is then that
empty entry. -/
theorem build_prompt_indexed (rows : List (List String)) (lastIndex : Nat)
    (audio : ℚ) (hne : extractPrompts rows ≠ []) :
    _build_prompt none lastIndex audio
        = ("tower rites itself, analogue dream", none) ∧
      (_build_prompt none lastIndex audio).1 ≠ "" ∧
      (∀ rows2, extractPrompts rows2 = [] →
        _build_prompt (some rows2) lastIndex audio
          = ("tower rites itself, analogue dream", none)) ∧
      ∃ i, (_build_prompt (some rows) lastIndex audio).2 = some i ∧
        i < (extractPrompts rows).length ∧
        (_build_prompt (some rows) lastIndex audio).1
          = (extractPrompts rows).getD i "" ∧
        i = (if (0.75 : ℚ) < audio
          then ((if (extractPrompts rows).length ≤ lastIndex then 0
            else lastIndex) + 1) % (extractPrompts rows).length
          else (if (extractPrompts rows).length ≤ lastIndex then 0
            else lastIndex)) := by
  have hlen : ¬((extractPrompts rows).length = 0) := by
    simpa [List.length_eq_zero] using hne
  have hpos : 0 < (extractPrompts rows).length := Nat.pos_of_ne_zero hlen
  refine ⟨rfl, ?_, ?_, ?_⟩
  · show ("tower rites itself, analogue dream" : String) ≠ ""
    decide
  · intro rows2 h2
    simp [_build_prompt, h2]
  · unfold _build_prompt
    simp only [hlen, if_false]
    refine ⟨_, rfl, ?_, rfl, rfl⟩
    by_cases ha : (0.75 : ℚ) < audio
    · simp only [if_pos ha]
      exact Nat.mod_lt _ hpos
    · simp only [if_neg ha]
      by_cases hge : (extractPrompts rows).length ≤ lastIndex
      · simpa [hge] using hpos
      · simpa [hge] using Nat.lt_of_not_le hge

/-- Witness for C10 at a concrete one-prompt table. -/
theorem build_prompt_indexed_witness :
    _build_prompt none 0 0 = ("tower rites itself, analogue dream", none) ∧
      (_build_prompt none 0 0).1 ≠ "" ∧
      (∀ rows2, extractPrompts rows2 = [] →
        _build_prompt (some rows2) 0 0
          = ("tower rites itself, analogue dream", none)) ∧
      ∃ i, (_build_prompt (some [["k", "hello"]]) 0 0).2 = some i ∧
        i < (extractPrompts [["k", "hello"]]).length ∧
        (_build_prompt (some [["k", "hello"]]) 0 0).1
          = (extractPrompts [["k", "hello"]]).getD i "" ∧
        i = (if (0.75 : ℚ) < 0
          then ((if (extractPrompts [["k", "hello"]]).length ≤ 0 then 0
            else 0) + 1) % (extractPrompts [["k", "hello"]]).length
          else (if (extractPrompts [["k", "hello"]]).length ≤ 0 then 0
            else 0)) :=
  build_prompt_indexed [["k", "hello"]] 0 0 (by decide)

/-- Counterexample to C10 as stated: a prompt table whose single data row
holds an empty prompt cell makes `_build_prompt` return the empty string,
so not every call returns a non-empty prompt. -/
theorem build_prompt_empty_cell :
    (_build_prompt (some [["k", ""]]) 0 0).1 = "" := by
  have ha : ¬((0.75 : ℚ) < 0) := by norm_num
  simp [_build_prompt, extractPrompts, ha]

end TowerRites
